/-
Verification of the Trading_Bot repository core: the paper-trading ledger
(`src/paper_trader.py`), the report generator (`src/reporting.py`) and the
Alor market-data client (`src/alor_client.py`).

The Python code is shallowly embedded: Python floats are modelled as exact
rationals (the spec calls the quantities "reals"), the mutable `PaperTrader`
object becomes an explicit state record threaded through `processOrder`,
Python exceptions become `Except` results paired with the state the object
holds at the moment the exception is raised (Python mutates in place, so a
raise in the middle of `process_order` leaves the partial mutations visible),
and the CSV trade log becomes an in-memory list of rows.
-/

import Mathlib

namespace TradingBot

/-! ## Data model (`src/paper_trader.py`)

`Position` mirrors the dataclass fields `symbol`, `quantity`, `avg_price`,
`stop_loss`, `take_profit` (lines 13-21).  `Order` mirrors lines 40-48; the
wall-clock `timestamp` field is omitted (it is only echoed into the log and
no claim depends on it). -/

structure Position where
  symbol : String
  quantity : ℚ := 0
  avg_price : ℚ := 0
  stop_loss : Option ℚ := none
  take_profit : Option ℚ := none
deriving Repr, DecidableEq

structure Order where
  symbol : String
  side : String
  quantity : ℚ
  price : ℚ
  stop_loss : Option ℚ := none
  take_profit : Option ℚ := none
deriving Repr, DecidableEq

/-- `Position.update` (paper_trader.py lines 23-37).  On "BUY" it accumulates
`total_cost = avg_price * quantity + price * quantity_new`, adds the quantity
and recomputes the average only when the new quantity is positive; on "SELL"
it subtracts and, when the quantity drops to `<= 0`, clamps it to `0` and
clears the average price and both protective levels.  The Python `else`
branch raises `ValueError`; `process_order` only ever calls `update` with the
literals "BUY"/"SELL", so that branch is modelled as the identity. -/
def Position.update (p : Position) (side : String) (quantity price : ℚ) : Position :=
  if side = "BUY" then
    let total_cost := p.avg_price * p.quantity + price * quantity
    let q' := p.quantity + quantity
    if q' > 0 then { p with quantity := q', avg_price := total_cost / q' }
    else { p with quantity := q' }
  else if side = "SELL" then
    let q' := p.quantity - quantity
    if q' ≤ 0 then
      { p with quantity := 0, avg_price := 0, stop_loss := none, take_profit := none }
    else { p with quantity := q' }
  else p

/-- One appended row of `logs/trades.csv` as written by `_log_trade`
(paper_trader.py lines 118-132): the order's symbol/side/quantity/price, the
*position's* stop/take levels after the update (an absent level is an empty
CSV field, here `none`), and the resulting cash.  The ISO timestamp column is
omitted. -/
structure TradeRecord where
  symbol : String
  side : String
  quantity : ℚ
  price : ℚ
  stop_loss : Option ℚ
  take_profit : Option ℚ
  cash : ℚ
deriving Repr, DecidableEq

/-- The mutable state of a `PaperTrader` object: `cash`, the `positions`
dict (a finite map, modelled as a lookup function `String → Option Position`)
and the trade log (the rows of `logs/trades.csv` after the header). -/
structure PaperTrader where
  cash : ℚ
  positions : String → Option Position
  log : List TradeRecord

/-- The errors `process_order` / the constructor raise.  Python raises
`ValueError` with distinct messages; the spec names them `InvalidOrderError`
(quantity/price/stop-take), `InsufficientFundsError`,
`InsufficientPositionError` and `ConfigError`. -/
inductive TradeError where
  | invalidQuantity
  | invalidPrice
  | insufficientFunds
  | insufficientPosition
  | invalidStopTake
  | unknownSide
  | configError
deriving Repr, DecidableEq

/-- `PaperTrader.__init__` (lines 54-66): `initial_cash <= 0` raises
(ConfigError); otherwise cash is set, the positions dict starts empty and the
log file holds only the header (empty row list). -/
def mkPaperTrader (initial_cash : ℚ) : Except TradeError PaperTrader :=
  if initial_cash ≤ 0 then .error .configError
  else .ok { cash := initial_cash, positions := fun _ => none, log := [] }

/-- `self.positions.setdefault(symbol, Position(symbol=symbol))`: insert a
fresh zero-quantity position if the key is absent. -/
def setdefaultPos (m : String → Option Position) (k : String) (v : Position) :
    String → Option Position :=
  fun s => if s = k then some ((m k).getD v) else m s

/-- In-place mutation of the dict entry `k` (the Python `position` variable
aliases the dict's value, so every mutation of it is visible in the dict). -/
def setPos (m : String → Option Position) (k : String) (v : Position) :
    String → Option Position :=
  fun s => if s = k then some v else m s

/-- `self.positions.pop(symbol, None)`. -/
def popPos (m : String → Option Position) (k : String) : String → Option Position :=
  fun s => if s = k then none else m s

/-- Lines 104-111 of `process_order`: while the position is still open,
overwrite only the stop/take levels present on the order, leaving absent ones
untouched; when it is flat, clear both unconditionally. -/
def applyLevels (order : Order) (position : Position) : Position :=
  if position.quantity > 0 then
    { position with
      stop_loss := match order.stop_loss with
        | some s => some s
        | none => position.stop_loss,
      take_profit := match order.take_profit with
        | some s => some s
        | none => position.take_profit }
  else { position with stop_loss := none, take_profit := none }

/-- Tail of `process_order` from line 104 on, reached after the cash/position
mutation and the stop/take cross-check: adjust the protective levels
(`applyLevels`, lines 104-111), append the log row (line 113), and drop the
symbol from the dict when the quantity reached zero (lines 115-116).
`position` is the already-updated position aliasing the dict entry. -/
def finishTrade (t : PaperTrader) (order : Order) (position : Position) :
    Except TradeError Unit × PaperTrader :=
  let pos2 := applyLevels order position
  let m3 := setPos t.positions order.symbol pos2
  let row : TradeRecord :=
    { symbol := order.symbol, side := order.side, quantity := order.quantity,
      price := order.price, stop_loss := pos2.stop_loss,
      take_profit := pos2.take_profit, cash := t.cash }
  let m4 := if pos2.quantity = 0 then popPos m3 order.symbol else m3
  (.ok (), { cash := t.cash, positions := m4, log := t.log ++ [row] })

/-- Lines 100-102 of `process_order`: if the order carries both levels and
`stop_loss >= take_profit`, raise — note this runs *after* the cash/position
mutation, so the state passed in (already mutated) is what the raise leaves
behind. -/
def afterTrade (t : PaperTrader) (order : Order) (position : Position) :
    Except TradeError Unit × PaperTrader :=
  match order.stop_loss, order.take_profit with
  | some sl, some tp =>
      if sl ≥ tp then (.error .invalidStopTake, t)
      else finishTrade t order position
  | _, _ => finishTrade t order position

/-- `PaperTrader.process_order` (lines 78-116), as a state transformer.  The
returned state is the object state at normal return *or at the point of the
raise*: quantity/price validation happens before any mutation, `setdefault`
inserts a zero-quantity entry before the funds/position checks, the BUY/SELL
branch mutates cash and the dict entry, and only then does the stop/take
cross-field check run. -/
def processOrder (t : PaperTrader) (order : Order) :
    Except TradeError Unit × PaperTrader :=
  if order.quantity ≤ 0 then (.error .invalidQuantity, t)
  else if order.price ≤ 0 then (.error .invalidPrice, t)
  else
    let m1 := setdefaultPos t.positions order.symbol { symbol := order.symbol }
    let position := (t.positions order.symbol).getD { symbol := order.symbol }
    if order.side = "BUY" then
      let cost := order.quantity * order.price
      if cost > t.cash then
        (.error .insufficientFunds, { t with positions := m1 })
      else
        let pos1 := position.update "BUY" order.quantity order.price
        afterTrade
          { cash := t.cash - cost, positions := setPos m1 order.symbol pos1,
            log := t.log }
          order pos1
    else if order.side = "SELL" then
      if position.quantity < order.quantity then
        (.error .insufficientPosition, { t with positions := m1 })
      else
        let pos1 := position.update "SELL" order.quantity order.price
        afterTrade
          { cash := t.cash + order.quantity * order.price,
            positions := setPos m1 order.symbol pos1, log := t.log }
          order pos1
    else (.error .unknownSide, { t with positions := m1 })

/-- Processing a sequence of orders, keeping the object state across both
successful and raising calls (the caller catches the exceptions and goes on,
as `main.py` does). -/
def runOrders (t : PaperTrader) : List Order → PaperTrader
  | [] => t
  | o :: rest => runOrders (processOrder t o).2 rest

/-- `PaperTrader.check_stop_take` (lines 134-156): a pure lookup that never
writes to the trader.  `not position` is true exactly when `dict.get`
returned `None` (a dataclass instance is always truthy). -/
def checkStopTake (t : PaperTrader) (symbol : String) (current_price : ℚ) :
    Option Order :=
  match t.positions symbol with
  | none => none
  | some position =>
    if position.quantity = 0 then none
    else
      let bySl : Option Order :=
        match position.stop_loss with
        | some sl =>
          if current_price ≤ sl then
            some { symbol := symbol, side := "SELL", quantity := position.quantity,
                   price := current_price, stop_loss := some sl, take_profit := none }
          else none
        | none => none
      match bySl with
      | some o => some o
      | none =>
        match position.take_profit with
        | some tp =>
          if current_price ≥ tp then
            some { symbol := symbol, side := "SELL", quantity := position.quantity,
                   price := current_price, stop_loss := none, take_profit := some tp }
          else none
        | none => none

/-! ## Reporting (`src/reporting.py`)

`generate_report` reads the cash column of the trade log back; for a log
written by `PaperTrader` every row's cash field parses, so the read-back
series is `initial_cash` followed by each row's cash. -/

structure TradingReport where
  final_balance : ℚ
  pnl : ℚ
  return_pct : ℚ
  max_drawdown_pct : ℚ
deriving Repr, DecidableEq

/-- `_read_cash_series` (reporting.py lines 20-36) applied to a log file
produced by `PaperTrader`: the list starts at `initial_cash` and appends the
`cash` column of every row. -/
def read_cash_series (initial_cash : ℚ) (log : List TradeRecord) : List ℚ :=
  initial_cash :: log.map TradeRecord.cash

/-- The loop of `_calculate_max_drawdown` (lines 43-54): `peak` starts unset
and is set by the first value (which contributes no drawdown); every later
value raises the peak if above it and otherwise contributes the percentage
drop from the running peak. -/
def maxDrawdownLoop : Option ℚ → ℚ → List ℚ → ℚ
  | _, max_drawdown, [] => max_drawdown
  | none, max_drawdown, value :: rest => maxDrawdownLoop (some value) max_drawdown rest
  | some peak, max_drawdown, value :: rest =>
    let peak' := if value > peak then value else peak
    let max_drawdown' :=
      if peak' > 0 then
        let drawdown := (peak' - value) / peak' * 100
        if drawdown > max_drawdown then drawdown else max_drawdown
      else max_drawdown
    maxDrawdownLoop (some peak') max_drawdown' rest

/-- `_calculate_max_drawdown` (reporting.py lines 39-56). -/
def calculate_max_drawdown (values : List ℚ) : ℚ :=
  maxDrawdownLoop none 0 values

/-- `generate_report` (reporting.py lines 59-74): raises (here `none`) on a
non-positive initial cash, otherwise computes final balance (last entry of
the cash series), P&L, percentage return and max drawdown. -/
def generate_report (initial_cash : ℚ) (log : List TradeRecord) :
    Option TradingReport :=
  if initial_cash ≤ 0 then none
  else
    let cash_series := read_cash_series initial_cash log
    let final_balance := cash_series.getLastD initial_cash
    let pnl := final_balance - initial_cash
    some { final_balance := final_balance, pnl := pnl,
           return_pct := pnl / initial_cash * 100,
           max_drawdown_pct := calculate_max_drawdown cash_series }

/-! ## Market-data client (`src/alor_client.py`)

JSON payloads are modelled structurally.  A `Json.null` field value decodes
to Python `None`, which `dict.get` cannot distinguish from an absent key. -/

inductive Json where
  | null
  | bool (b : Bool)
  | num (q : ℚ)
  | str (s : String)
  | arr (elems : List Json)
  | obj (fields : List (String × Json))

/-- `payload.get(key)` on a decoded JSON object: the first binding wins and a
JSON `null` value is Python `None`, i.e. indistinguishable from absence. -/
def jsonGet : List (String × Json) → String → Option Json
  | [], _ => none
  | (k, v) :: rest, key =>
    if k = key then match v with | .null => none | other => some other
    else jsonGet rest key

/-- The REST failure taxonomy of `get_historical_candles`: `AlorConnectionError`
for a network-level failure, `AlorAuthError` for HTTP 401, and `AlorAPIError`
in its three variants — bad status (carrying `response.text[:200]`), a body
that is not JSON, and a JSON body without candle data. -/
inductive RestError where
  | connectionError
  | authError
  | apiStatus (status : Nat) (truncated_body : String)
  | apiBadJson
  | apiNoCandles
deriving Repr, DecidableEq

/-- Which `RestError`s are (subclasses of) `AlorAPIError` raised by the REST
path's "malformed or unexpected response" cases. -/
def RestError.isApiError : RestError → Bool
  | .apiStatus _ _ => true
  | .apiBadJson => true
  | .apiNoCandles => true
  | _ => false

/-- The outcome of `self._session.get(...)`: either the request machinery
raised (`requests.exceptions.RequestException`) or a response arrived, with
its status code, its text and its JSON decode (`none` when `response.json()`
raises `ValueError`). -/
inductive HttpOutcome where
  | netFail
  | response (status : Nat) (text : String) (json : Option Json)

/-- `requests.Response.ok`: true iff the status code is below 400. -/
def statusOk (status : Nat) : Bool := status < 400

/-- `AlorClient._safe_get` (alor_client.py lines 110-125): a request
exception becomes `AlorConnectionError`, a 401 becomes `AlorAuthError`, any
other non-ok status becomes `AlorAPIError` carrying the first 200 characters
of the body, and an ok response is passed through. -/
def safe_get (r : HttpOutcome) : Except RestError (Nat × String × Option Json) :=
  match r with
  | .netFail => .error .connectionError
  | .response status text json =>
    if status = 401 then .error .authError
    else if ¬ statusOk status then .error (.apiStatus status (text.take 200))
    else .ok (status, text, json)

/-- `AlorClient._safe_json` (lines 127-132): a body that does not decode
raises `AlorAPIError`. -/
def safe_json (json : Option Json) : Except RestError Json :=
  match json with
  | none => .error .apiBadJson
  | some data => .ok data

/-- `AlorClient.get_historical_candles` (lines 71-94), as a function of the
HTTP outcome the session produces for the single request it makes:
`candles = data.get("candles") if isinstance(data, dict) else data`, and a
missing/`null` result raises `AlorAPIError`. -/
def get_historical_candles (r : HttpOutcome) : Except RestError Json :=
  match safe_get r with
  | .error e => .error e
  | .ok (_, _, json) =>
    match safe_json json with
    | .error e => .error e
    | .ok data =>
      let candles : Option Json :=
        match data with
        | .obj fields => jsonGet fields "candles"
        | .null => none
        | other => some other
      match candles with
      | none => .error .apiNoCandles
      | some c => .ok c

/-! ## Streaming subscription (`AlorClient.subscribe_quotes`, lines 141-235)

The environment is modelled as a list of connection sessions; each session
delivers a list of frames (a frame is `none` when its text is not valid
JSON, `some payload` otherwise — the bytes/str decode step is transparent)
and then either closes the connection (`ConnectionClosedError` on the next
`recv`) or stays silent (the coroutine would block forever, which no claim
exercises).  The callback is a function from the payload to an `Except`
carrying the exception it raises, if any. -/

/-- An exception raised by the caller-supplied callback, grouped by how the
`except` ladder in `subscribe_quotes` classifies it: the websockets transport
exceptions (`ConnectionClosedError` / `WebSocketException`), then the Alor
taxonomy, then any other `Exception`. -/
inductive CallbackExc where
  | wsException
  | authError
  | connectionError
  | apiError
  | otherError
deriving Repr, DecidableEq

/-- One connection session offered by the environment. -/
structure Session where
  frames : List (Option Json)
  closes : Bool

/-- `AlorClient._parse_ws_message` (lines 220-235): undecodable JSON raises
`AlorAPIError`; an object with `status == 401` raises `AlorAuthError`; any
other non-object payload raises `AlorAPIError`; an object payload is
returned.  (`payload.get("status") == 401` is checked before the
object-shape check, but a non-object has no `status` field.) -/
def parse_ws_message (frame : Option Json) : Except RestError Json :=
  match frame with
  | none => .error .apiBadJson
  | some payload =>
    match payload with
    | .obj fields =>
      match jsonGet fields "status" with
      | some (.num q) => if q = 401 then .error .authError else .ok payload
      | _ => .ok payload
    | _ => .error .apiBadJson

/-- How one receive loop (the `while True` of lines 166-172) ends. -/
inductive InnerEnd where
  | graceful
  | fatalAuth
  | fatalApi
  | reconnect
  | blocked
deriving Repr, DecidableEq

/-- The receive loop of `subscribe_quotes` for one connection: receive a
frame, parse it, dispatch it, count it, and return once `received` reaches
`max_messages` (when set).  Produces the number of successful dispatches this
session and how the loop ended, under the `except` classification of lines
173-182: a parse `AlorAuthError` propagates (`except AlorAuthError: raise`),
a parse `AlorAPIError` is re-wrapped by the broad `except Exception` but
still surfaces as `AlorAPIError`; a callback `ConnectionClosedError` /
`WebSocketException` is caught by the transport clause (reconnect path), a
callback `AlorAuthError` propagates, and every other callback exception —
including `AlorConnectionError` — is wrapped as `AlorAPIError`. -/
def runFrames (cb : Json → Except CallbackExc Unit) (max_messages : Option Nat) :
    Nat → List (Option Json) → Bool → Nat × InnerEnd
  | _, [], closes => (0, if closes then .reconnect else .blocked)
  | received, frame :: rest, closes =>
    match parse_ws_message frame with
    | .error .authError => (0, .fatalAuth)
    | .error _ => (0, .fatalApi)
    | .ok payload =>
      match cb payload with
      | .error .wsException => (0, .reconnect)
      | .error .authError => (0, .fatalAuth)
      | .error _ => (0, .fatalApi)
      | .ok _ =>
        let received' := received + 1
        let stop : Bool := match max_messages with
          | some m => received' ≥ m
          | none => false
        if stop then (1, .graceful)
        else
          let (d, e) := runFrames cb max_messages received' rest closes
          (d + 1, e)

/-- How a whole `subscribe_quotes` call ends. -/
inductive SubOutcome where
  | completed
  | failedAuth
  | failedApi
  | failedConnection
  | blocked
deriving Repr, DecidableEq

/-- The observable result of a `subscribe_quotes` call: how many payloads
reached the callback, how many `asyncio.sleep(reconnect_delay)` backoff
sleeps happened, and how the call ended. -/
structure SubResult where
  dispatched : Nat
  sleeps : Nat
  outcome : SubOutcome
deriving Repr, DecidableEq

/-- The `while attempts <= reconnect_attempts` loop of `subscribe_quotes`
(lines 159-185): each iteration opens one connection (consumes one session),
sends the subscription frame and runs the receive loop.  A transport failure
increments `attempts`; when `attempts` now exceeds `reconnect_attempts` an
`AlorConnectionError` is raised, otherwise the loop sleeps `reconnect_delay`
once and reconnects.  The fatal ends terminate the call immediately;
reaching `max_messages` returns successfully.  (`received` restarts at 0 on
every connection, per line 165.) -/
def subscribeLoop (cb : Json → Except CallbackExc Unit) (reconnect_attempts : Nat)
    (max_messages : Option Nat) :
    Nat → Nat → Nat → List Session → SubResult
  | _, dispatched, sleeps, [] => ⟨dispatched, sleeps, .blocked⟩
  | attempts, dispatched, sleeps, s :: rest =>
    let (d, e) := runFrames cb max_messages 0 s.frames s.closes
    let dispatched' := dispatched + d
    match e with
    | .graceful => ⟨dispatched', sleeps, .completed⟩
    | .fatalAuth => ⟨dispatched', sleeps, .failedAuth⟩
    | .fatalApi => ⟨dispatched', sleeps, .failedApi⟩
    | .blocked => ⟨dispatched', sleeps, .blocked⟩
    | .reconnect =>
      if attempts + 1 > reconnect_attempts then ⟨dispatched', sleeps, .failedConnection⟩
      else subscribeLoop cb reconnect_attempts max_messages
        (attempts + 1) dispatched' (sleeps + 1) rest

/-- `AlorClient.subscribe_quotes` over an environment trace: the attempt
counter starts at 0, so the loop body always runs at least once. -/
def subscribe_quotes (cb : Json → Except CallbackExc Unit)
    (reconnect_attempts : Nat) (max_messages : Option Nat)
    (sessions : List Session) : SubResult :=
  subscribeLoop cb reconnect_attempts max_messages 0 0 0 sessions

/-! ## Concrete fixtures used by the test scenarios and counterexamples -/

/-- A freshly constructed `PaperTrader(1000.0)`. -/
def trader1000 : PaperTrader :=
  { cash := 1000, positions := fun _ => none, log := [] }

/-- A freshly constructed `PaperTrader(100.0)`. -/
def trader100 : PaperTrader :=
  { cash := 100, positions := fun _ => none, log := [] }

/-- `Order(symbol="SBER", side="BUY", quantity=5, price=100)`. -/
def buy5at100 : Order := { symbol := "SBER", side := "BUY", quantity := 5, price := 100 }

/-- `Order(symbol="SBER", side="SELL", quantity=5, price=80)`. -/
def sell5at80 : Order := { symbol := "SBER", side := "SELL", quantity := 5, price := 80 }

/-- A BUY order whose stop-loss (10) is not below its take-profit (5): the
cross-field check of lines 100-102 rejects it, but only after the cash and
position mutation. -/
def orderBadLevels : Order :=
  { symbol := "S", side := "BUY", quantity := 1, price := 1,
    stop_loss := some 10, take_profit := some 5 }

/-- A callback that raises `AlorConnectionError` on every payload. -/
def connRaisingCallback : Json → Except CallbackExc Unit :=
  fun _ => .error .connectionError

/-- A callback that raises a websocket transport exception
(`ConnectionClosedError`/`WebSocketException`) on every payload. -/
def wsRaisingCallback : Json → Except CallbackExc Unit :=
  fun _ => .error .wsException

/-- A callback that returns normally on every payload. -/
def okCallback : Json → Except CallbackExc Unit := fun _ => .ok ()

/-- A session delivering one well-formed object payload. -/
def oneObjSession : Session := ⟨[some (.obj [("price", .num 95)])], false⟩

/-- A trader holding a stale zero-quantity entry for symbol "X". -/
def traderZeroQty : PaperTrader :=
  { cash := 1,
    positions := fun s =>
      if s = "X" then some { symbol := "X", quantity := 0, stop_loss := some 95 }
      else none,
    log := [] }

/-- An open position of 5 units at average 100 with stop-loss 95. -/
def stopPos : Position :=
  { symbol := "SBER", quantity := 5, avg_price := 100, stop_loss := some 95 }

/-- A trader holding `stopPos` on "SBER" (the spec's stop-trigger scenario). -/
def traderStop95 : PaperTrader :=
  { cash := 500,
    positions := fun s => if s = "SBER" then some stopPos else none,
    log := [] }

/-! ## Helper lemmas -/

theorem sell_ne_buy : ("SELL" : String) ≠ "BUY" := by decide

theorem buy_ne_sell : ("BUY" : String) ≠ "SELL" := by decide

theorem finishTrade_cash (t : PaperTrader) (o : Order) (p : Position) :
    (finishTrade t o p).2.cash = t.cash := rfl

theorem finishTrade_fst (t : PaperTrader) (o : Order) (p : Position) :
    (finishTrade t o p).1 = .ok () := rfl

theorem finishTrade_log (t : PaperTrader) (o : Order) (p : Position) :
    ∃ row, (finishTrade t o p).2.log = t.log ++ [row] := ⟨_, rfl⟩

/-- `afterTrade` either rejects the order levels leaving the (already
mutated) state it was given, or behaves as `finishTrade`. -/
theorem afterTrade_cases (t : PaperTrader) (o : Order) (p : Position) :
    afterTrade t o p = (.error .invalidStopTake, t)
      ∨ afterTrade t o p = finishTrade t o p := by
  unfold afterTrade
  rcases hsl : o.stop_loss with _ | sl <;> rcases htp : o.take_profit with _ | tp
  · exact Or.inr rfl
  · exact Or.inr rfl
  · exact Or.inr rfl
  · by_cases h : sl ≥ tp
    · simp [h]
    · simp [h]

theorem afterTrade_cash (t : PaperTrader) (o : Order) (p : Position) :
    (afterTrade t o p).2.cash = t.cash := by
  rcases afterTrade_cases t o p with h | h <;> rw [h]
  rfl

/-! ## Claim theorems -/

/-- C9: starting from cash 1000, BUY 5 @100 then SELL 5 @80 leaves cash 900,
and the report generated from the resulting trade log with initial cash 1000
has final balance 900, P&L -100, return -10% and max drawdown 50%, where the
drawdown is measured against the running peak of the cash series
1000, 500, 900. -/
theorem C9_lossScenarioReport :
    mkPaperTrader 1000 = .ok trader1000
    ∧ (runOrders trader1000 [buy5at100, sell5at80]).cash = 900
    ∧ read_cash_series 1000 (runOrders trader1000 [buy5at100, sell5at80]).log
        = [1000, 500, 900]
    ∧ calculate_max_drawdown [1000, 500, 900] = 50
    ∧ generate_report 1000 (runOrders trader1000 [buy5at100, sell5at80]).log
        = some { final_balance := 900, pnl := -100, return_pct := -10,
                 max_drawdown_pct := 50 } := by
  refine ⟨by norm_num [mkPaperTrader, trader1000], ?_, ?_, ?_, ?_⟩ <;>
    norm_num [runOrders, processOrder, afterTrade, finishTrade, applyLevels,
      Position.update, setdefaultPos, setPos, popPos, trader1000, buy5at100,
      sell5at80, sell_ne_buy, buy_ne_sell, generate_report, read_cash_series,
      calculate_max_drawdown, maxDrawdownLoop]

/-- C4: a BUY applied to a position with old quantity `oldQty >= 0` by a fill
of positive quantity recomputes the average entry price as the
quantity-weighted mean `(oldAvg*oldQty + price*qty)/(oldQty + qty)`; in
particular buying 5 units at 100 and then 5 at 120 yields average 110. -/
theorem C4_buyWeightedAverage (p : Position) (q price : ℚ)
    (hq : 0 < q) (h0 : 0 ≤ p.quantity) :
    ((p.update "BUY" q price).avg_price
        = (p.avg_price * p.quantity + price * q) / (p.quantity + q)
      ∧ (p.update "BUY" q price).quantity = p.quantity + q)
    ∧ ((({ symbol := "S" } : Position).update "BUY" 5 100).update "BUY" 5 120).avg_price
        = 110 := by
  constructor
  · have hq' : 0 < p.quantity + q := by linarith
    simp [Position.update, hq']
  · norm_num [Position.update]

theorem C4_buyWeightedAverage_witness :
    (0:ℚ) < 5 ∧ (0:ℚ) ≤ ({ symbol := "S" } : Position).quantity
    ∧ (((({ symbol := "S" } : Position).update "BUY" 5 100).avg_price
          = (({ symbol := "S" } : Position).avg_price * ({ symbol := "S" } : Position).quantity
              + 100 * 5) / (({ symbol := "S" } : Position).quantity + 5)
        ∧ (({ symbol := "S" } : Position).update "BUY" 5 100).quantity
          = ({ symbol := "S" } : Position).quantity + 5)
       ∧ ((({ symbol := "S" } : Position).update "BUY" 5 100).update "BUY" 5 120).avg_price
          = 110) :=
  ⟨by norm_num, by norm_num,
    C4_buyWeightedAverage { symbol := "S" } 5 100 (by norm_num) (by norm_num)⟩

/-- C10: a positions-map entry whose quantity is 0 never produces a synthetic
exit order, whatever the current price and the stored levels. -/
theorem C10_zeroQuantityNoExit (t : PaperTrader) (symbol : String)
    (current_price : ℚ) (p : Position)
    (hp : t.positions symbol = some p) (h0 : p.quantity = 0) :
    checkStopTake t symbol current_price = none := by
  unfold checkStopTake
  rw [hp]
  simp [h0]

theorem C10_zeroQuantityNoExit_witness :
    traderZeroQty.positions "X"
        = some { symbol := "X", quantity := 0, avg_price := 0,
                 stop_loss := some 95, take_profit := none }
    ∧ ({ symbol := "X", quantity := 0, avg_price := 0, stop_loss := some 95,
         take_profit := none } : Position).quantity = 0
    ∧ checkStopTake traderZeroQty "X" 50 = none :=
  ⟨by norm_num [traderZeroQty], rfl,
    C10_zeroQuantityNoExit traderZeroQty "X" 50
      { symbol := "X", quantity := 0, avg_price := 0, stop_loss := some 95,
        take_profit := none }
      (by norm_num [traderZeroQty]) rfl⟩

/-- C5: `check_stop_take` is a pure lookup (its embedding is a function of
the state, mirroring a method that performs no writes).  It returns nothing
when the symbol has no open position; otherwise, stop-loss first: when a
stop-loss is set and `current_price <= stopLoss` it returns a SELL order for
the full open quantity at `current_price` carrying the stop-loss; else when a
take-profit is set and `current_price >= takeProfit` it returns the analogous
SELL order carrying the take-profit; else nothing. -/
theorem C5_checkStopTakeSpec (t : PaperTrader) (symbol : String) (current_price : ℚ) :
    (t.positions symbol = none → checkStopTake t symbol current_price = none)
    ∧ (∀ p : Position, t.positions symbol = some p → p.quantity ≠ 0 →
        (∀ sl, p.stop_loss = some sl → current_price ≤ sl →
          checkStopTake t symbol current_price
            = some { symbol := symbol, side := "SELL", quantity := p.quantity,
                     price := current_price, stop_loss := some sl, take_profit := none })
        ∧ (∀ tp, p.take_profit = some tp →
            (∀ sl, p.stop_loss = some sl → ¬ current_price ≤ sl) →
            current_price ≥ tp →
            checkStopTake t symbol current_price
              = some { symbol := symbol, side := "SELL", quantity := p.quantity,
                       price := current_price, stop_loss := none, take_profit := some tp })
        ∧ ((∀ sl, p.stop_loss = some sl → ¬ current_price ≤ sl) →
           (∀ tp, p.take_profit = some tp → ¬ current_price ≥ tp) →
           checkStopTake t symbol current_price = none)) := by
  constructor
  · intro hnone
    unfold checkStopTake
    rw [hnone]
  · intro p hp hq
    unfold checkStopTake
    rw [hp]
    refine ⟨?_, ?_, ?_⟩
    · intro sl hsl hle
      simp [hq, hsl, hle]
    · intro tp htp hnot hge
      rcases hsl' : p.stop_loss with _ | sl
      · simp [hq, hsl', htp, hge]
      · simp [hq, hsl', htp, hge, hnot sl hsl']
    · intro hnotsl hnottp
      rcases hsl' : p.stop_loss with _ | sl
      · rcases htp' : p.take_profit with _ | tp
        · simp [hq, hsl', htp']
        · simp [hq, hsl', htp', hnottp tp htp']
      · rcases htp' : p.take_profit with _ | tp
        · simp [hq, hsl', htp', hnotsl sl hsl']
        · simp [hq, hsl', htp', hnotsl sl hsl', hnottp tp htp']

theorem C5_checkStopTakeSpec_witness :
    traderStop95.positions "SBER" = some stopPos
    ∧ stopPos.quantity ≠ 0
    ∧ stopPos.stop_loss = some 95
    ∧ ((94:ℚ) ≤ 95)
    ∧ checkStopTake traderStop95 "SBER" 94
        = some { symbol := "SBER", side := "SELL", quantity := stopPos.quantity,
                 price := 94, stop_loss := some 95, take_profit := none } :=
  ⟨by norm_num [traderStop95], by norm_num [stopPos], rfl, by norm_num,
    ((C5_checkStopTakeSpec traderStop95 "SBER" 94).2 stopPos
      (by norm_num [traderStop95]) (by norm_num [stopPos])).1 95 rfl (by norm_num)⟩

/-- A single `process_order` call never drives cash negative, whether it
returns or raises: the only decrement is guarded by `cost > cash`. -/
theorem processOrder_cash_nonneg (t : PaperTrader) (o : Order) (h : 0 ≤ t.cash) :
    0 ≤ (processOrder t o).2.cash := by
  unfold processOrder
  by_cases hq : o.quantity ≤ 0
  · simpa [hq]
  · by_cases hp : o.price ≤ 0
    · simpa [hq, hp]
    · by_cases hside : o.side = "BUY"
      · by_cases hc : o.quantity * o.price > t.cash
        · simpa [hq, hp, hside, hc]
        · simp [hq, hp, hside, hc, afterTrade_cash]
          linarith [not_lt.mp hc]
      · by_cases hsell : o.side = "SELL"
        · by_cases hins :
              ((t.positions o.symbol).getD { symbol := o.symbol }).quantity < o.quantity
          · simpa [hq, hp, hside, hsell, hins]
          · simp [hq, hp, hside, hsell, hins, afterTrade_cash]
            have hq' : 0 < o.quantity := not_le.mp hq
            have hp' : 0 < o.price := not_le.mp hp
            nlinarith
        · simpa [hq, hp, hside, hsell]

/-- Cash stays non-negative along any sequence of `process_order` calls. -/
theorem runOrders_cash_nonneg (orders : List Order) (t : PaperTrader)
    (h : 0 ≤ t.cash) : 0 ≤ (runOrders t orders).cash := by
  induction orders generalizing t with
  | nil => simpa [runOrders]
  | cons o rest ih =>
    rw [runOrders]
    exact ih _ (processOrder_cash_nonneg t o h)

/-- A successful BUY was affordable: the guard `cost > cash` raised
otherwise. -/
theorem processOrder_buy_funds (t : PaperTrader) (o : Order)
    (hside : o.side = "BUY") (hok : (processOrder t o).1 = .ok ()) :
    o.quantity * o.price ≤ t.cash := by
  unfold processOrder at hok
  by_cases hq : o.quantity ≤ 0
  · simp [hq] at hok
  · by_cases hp : o.price ≤ 0
    · simp [hq, hp] at hok
    · by_cases hc : o.quantity * o.price > t.cash
      · simp [hq, hp, hside, hc] at hok
      · exact not_lt.mp hc

/-- A SELL never decreases cash, whether it succeeds or raises. -/
theorem processOrder_sell_cash_mono (t : PaperTrader) (o : Order)
    (hside : o.side = "SELL") : t.cash ≤ (processOrder t o).2.cash := by
  unfold processOrder
  by_cases hq : o.quantity ≤ 0
  · simp [hq]
  · by_cases hp : o.price ≤ 0
    · simp [hq, hp]
    · have hbuy : ¬ o.side = "BUY" := by rw [hside]; exact sell_ne_buy
      by_cases hins :
          ((t.positions o.symbol).getD { symbol := o.symbol }).quantity < o.quantity
      · simp [hq, hp, hbuy, hside, hins]
      · simp [hq, hp, hbuy, hside, hins, afterTrade_cash]
        have hq' : 0 < o.quantity := not_le.mp hq
        have hp' : 0 < o.price := not_le.mp hp
        nlinarith

/-- C2: for a ledger constructed with positive initial cash, cash is >= 0
after every `process_order` call of any sequence; a BUY is applied only when
`quantity * price <= cash`, and a SELL never decreases cash. -/
theorem C2_cashInvariant (initial_cash : ℚ) (t0 : PaperTrader)
    (h0 : mkPaperTrader initial_cash = .ok t0) :
    (∀ orders : List Order, 0 ≤ (runOrders t0 orders).cash)
    ∧ (∀ (t : PaperTrader) (o : Order), o.side = "BUY" →
        (processOrder t o).1 = .ok () → o.quantity * o.price ≤ t.cash)
    ∧ (∀ (t : PaperTrader) (o : Order), o.side = "SELL" →
        t.cash ≤ (processOrder t o).2.cash) := by
  have hcash : 0 ≤ t0.cash := by
    unfold mkPaperTrader at h0
    by_cases hle : initial_cash ≤ 0
    · simp [hle] at h0
    · simp only [if_neg hle] at h0
      cases h0
      exact le_of_lt (not_le.mp hle)
  exact ⟨fun orders => runOrders_cash_nonneg orders t0 hcash,
    fun t o hs hok => processOrder_buy_funds t o hs hok,
    fun t o hs => processOrder_sell_cash_mono t o hs⟩

theorem C2_cashInvariant_witness :
    mkPaperTrader 1000 = .ok trader1000
    ∧ 0 ≤ (runOrders trader1000 [buy5at100, sell5at80]).cash :=
  ⟨by norm_num [mkPaperTrader, trader1000],
    (C2_cashInvariant 1000 trader1000
        (by norm_num [mkPaperTrader, trader1000])).1 [buy5at100, sell5at80]⟩

/-- C7: the complete failure mapping of `get_historical_candles`: a network
failure raises ConnectionError, HTTP 401 raises AuthError, any other
non-success status raises APIError carrying the response body truncated to
200 characters, a non-JSON body raises APIError, and an object body whose
candle field is missing (or null) raises APIError; these are the only
failure modes, and on success the raw candle payload is returned unchanged
(an object's "candles" value, or a non-object body taken as the sequence
itself). -/
theorem C7_historicalCandlesFailures :
    (get_historical_candles .netFail = .error .connectionError)
    ∧ (∀ text json, get_historical_candles (.response 401 text json) = .error .authError)
    ∧ (∀ status text json, status ≠ 401 → statusOk status = false →
        get_historical_candles (.response status text json)
          = .error (.apiStatus status (text.take 200)))
    ∧ (∀ status text, status ≠ 401 → statusOk status = true →
        get_historical_candles (.response status text none) = .error .apiBadJson)
    ∧ (∀ status text fields, status ≠ 401 → statusOk status = true →
        jsonGet fields "candles" = none →
        get_historical_candles (.response status text (some (.obj fields)))
          = .error .apiNoCandles)
    ∧ (∀ status text fields c, status ≠ 401 → statusOk status = true →
        jsonGet fields "candles" = some c →
        get_historical_candles (.response status text (some (.obj fields))) = .ok c)
    ∧ (∀ status text elems, status ≠ 401 → statusOk status = true →
        get_historical_candles (.response status text (some (.arr elems)))
          = .ok (.arr elems))
    ∧ (∀ r e, get_historical_candles r = .error e →
        e = .connectionError ∨ e = .authError ∨ e.isApiError = true) := by
  refine ⟨rfl, ?_, ?_, ?_, ?_, ?_, ?_, ?_⟩
  · intro text json
    simp [get_historical_candles, safe_get]
  · intro status text json h401 hok
    simp [get_historical_candles, safe_get, h401, hok]
  · intro status text h401 hok
    simp [get_historical_candles, safe_get, safe_json, h401, hok]
  · intro status text fields h401 hok hget
    simp [get_historical_candles, safe_get, safe_json, h401, hok, hget]
  · intro status text fields c h401 hok hget
    simp [get_historical_candles, safe_get, safe_json, h401, hok, hget]
  · intro status text elems h401 hok
    simp [get_historical_candles, safe_get, safe_json, h401, hok]
  · intro r e herr
    rcases r with _ | ⟨status, text, json⟩
    · simp [get_historical_candles, safe_get] at herr
      simp [herr]
    · by_cases h401 : status = 401
      · subst h401
        simp [get_historical_candles, safe_get] at herr
        simp [herr]
      · by_cases hok : statusOk status = true
        · rcases json with _ | data
          · simp [get_historical_candles, safe_get, safe_json, h401, hok] at herr
            simp [← herr, RestError.isApiError]
          · rcases data with _ | b | q | s | elems | fields
            · simp [get_historical_candles, safe_get, safe_json, h401, hok] at herr
              simp [← herr, RestError.isApiError]
            · simp [get_historical_candles, safe_get, safe_json, h401, hok] at herr
            · simp [get_historical_candles, safe_get, safe_json, h401, hok] at herr
            · simp [get_historical_candles, safe_get, safe_json, h401, hok] at herr
            · simp [get_historical_candles, safe_get, safe_json, h401, hok] at herr
            · rcases hget : jsonGet fields "candles" with _ | c
              · simp [get_historical_candles, safe_get, safe_json, h401, hok, hget] at herr
                simp [← herr, RestError.isApiError]
              · simp [get_historical_candles, safe_get, safe_json, h401, hok, hget] at herr
        · have hok' : statusOk status = false := by
            cases hst : statusOk status
            · rfl
            · exact absurd hst hok
          simp [get_historical_candles, safe_get, h401, hok'] at herr
          simp [← herr, RestError.isApiError]

theorem C7_historicalCandlesFailures_witness :
    ((404:Nat) ≠ 401 ∧ statusOk 404 = false
      ∧ get_historical_candles (.response 404 "not found" none)
          = .error (.apiStatus 404 ("not found".take 200)))
    ∧ ((200:Nat) ≠ 401 ∧ statusOk 200 = true
      ∧ jsonGet [("candles", Json.arr [])] "candles" = some (.arr [])
      ∧ get_historical_candles (.response 200 "" (some (.obj [("candles", Json.arr [])])))
          = .ok (.arr [])) :=
  ⟨⟨by norm_num, rfl,
     (C7_historicalCandlesFailures.2.2.1) 404 "not found" none (by norm_num) rfl⟩,
   ⟨by norm_num, rfl, rfl,
     (C7_historicalCandlesFailures.2.2.2.2.2.1) 200 "" [("candles", Json.arr [])]
       (.arr []) (by norm_num) rfl rfl⟩⟩

/-- When every frame of a connection parses to a payload whose dispatch
succeeds and the message budget is exactly the number of frames, the receive
loop dispatches them all and stops gracefully. -/
theorem runFrames_all_ok (cb : Json → Except CallbackExc Unit) (m : Nat)
    (frames : List (Option Json)) (closes : Bool) :
    ∀ received : Nat,
      (∀ f ∈ frames, ∃ p, parse_ws_message f = .ok p ∧ cb p = .ok ()) →
      received + frames.length = m → frames ≠ [] →
      runFrames cb (some m) received frames closes = (frames.length, .graceful) := by
  induction frames with
  | nil => exact fun received _ _ hne => absurd rfl hne
  | cons f rest ih =>
    intro received hgood hlen _
    obtain ⟨p, hpar, hcb⟩ := hgood f (List.mem_cons_self f rest)
    rcases Nat.lt_or_ge (received + 1) m with hlt | hge
    · have hne' : rest ≠ [] := by
        intro h
        subst h
        simp at hlen
        omega
      have hrec := ih (received + 1)
        (fun g hg => hgood g (List.mem_cons_of_mem f hg))
        (by simp at hlen ⊢; omega) hne'
      have hstop : decide (received + 1 ≥ m) = false :=
        decide_eq_false (Nat.not_le.mpr hlt)
      simp [runFrames, hpar, hcb, hstop, hrec]
    · have hrest : rest = [] := by
        have : rest.length = 0 := by simp at hlen; omega
        exact List.length_eq_zero.mp this
      subst hrest
      have hstop : decide (received + 1 ≥ m) = true := decide_eq_true hge
      simp [runFrames, hpar, hcb, hstop]

/-- C8: with `max_messages = n > 0`, a stream delivering n well-formed
messages whose dispatches succeed reaches the callback exactly n times and
the subscription returns successfully, with no reconnect sleep; in
particular n = 1 dispatches exactly one message. -/
theorem C8_maxMessagesGraceful (cb : Json → Except CallbackExc Unit)
    (reconnect_attempts n : Nat) (frames : List (Option Json)) (closes : Bool)
    (rest : List Session) (hn : 0 < n) (hlen : frames.length = n)
    (hgood : ∀ f ∈ frames, ∃ p, parse_ws_message f = .ok p ∧ cb p = .ok ()) :
    subscribe_quotes cb reconnect_attempts (some n) (⟨frames, closes⟩ :: rest)
      = ⟨n, 0, .completed⟩ := by
  have hne : frames ≠ [] := by
    intro h
    subst h
    simp at hlen
    omega
  have h := runFrames_all_ok cb n frames closes 0 hgood (by simpa using hlen) hne
  simp [subscribe_quotes, subscribeLoop, h, hlen]

theorem C8_maxMessagesGraceful_witness :
    0 < 1
    ∧ ([some (Json.obj [("price", Json.num 95)])] : List (Option Json)).length = 1
    ∧ subscribe_quotes okCallback 3 (some 1)
        [⟨[some (.obj [("price", .num 95)])], false⟩] = ⟨1, 0, .completed⟩ :=
  ⟨by norm_num, rfl,
    C8_maxMessagesGraceful okCallback 3 1 [some (.obj [("price", .num 95)])] false []
      (by norm_num) rfl
      (by
        intro f hf
        simp at hf
        subst hf
        exact ⟨.obj [("price", .num 95)], rfl, rfl⟩)⟩

/-- C6 (amended): for an error raised by the caller-supplied callback during
dispatch, an `AlorAuthError` propagates to the `subscribe_quotes` caller
unwrapped; a websocket transport exception (`ConnectionClosedError` /
`WebSocketException`) is caught by the transport clause instead — it consumes
one reconnect attempt and then either surfaces as an `AlorConnectionError`
(budget exhausted) or performs one backoff sleep and restarts the
connect→subscribe→stream cycle; and every other error —
`AlorConnectionError` included — is wrapped and surfaced as an
`AlorAPIError`. -/
theorem C6_callbackErrorClassification (cb : Json → Except CallbackExc Unit)
    (reconnect_attempts : Nat) (max_messages : Option Nat)
    (frame : Option Json) (payload : Json) (e : CallbackExc)
    (closes : Bool) (rest : List Session)
    (hparse : parse_ws_message frame = .ok payload)
    (hcb : cb payload = .error e) :
    (e = .authError →
      (subscribe_quotes cb reconnect_attempts max_messages
        (⟨[frame], closes⟩ :: rest)).outcome = .failedAuth)
    ∧ (e ≠ .authError → e ≠ .wsException →
      (subscribe_quotes cb reconnect_attempts max_messages
        (⟨[frame], closes⟩ :: rest)).outcome = .failedApi)
    ∧ (e = .wsException →
      (reconnect_attempts = 0 →
        subscribe_quotes cb reconnect_attempts max_messages
          (⟨[frame], closes⟩ :: rest) = ⟨0, 0, .failedConnection⟩)
      ∧ (0 < reconnect_attempts →
        subscribe_quotes cb reconnect_attempts max_messages
          (⟨[frame], closes⟩ :: rest)
          = subscribeLoop cb reconnect_attempts max_messages 1 0 1 rest)) := by
  refine ⟨?_, ?_, ?_⟩
  · intro he
    subst he
    simp [subscribe_quotes, subscribeLoop, runFrames, hparse, hcb]
  · intro hne hnw
    cases e
    · exact absurd rfl hnw
    · exact absurd rfl hne
    · simp [subscribe_quotes, subscribeLoop, runFrames, hparse, hcb]
    · simp [subscribe_quotes, subscribeLoop, runFrames, hparse, hcb]
    · simp [subscribe_quotes, subscribeLoop, runFrames, hparse, hcb]
  · intro he
    subst he
    constructor
    · intro hra
      subst hra
      simp [subscribe_quotes, subscribeLoop, runFrames, hparse, hcb]
    · intro hra
      have h1 : ¬ 0 + 1 > reconnect_attempts := by omega
      simp [subscribe_quotes, subscribeLoop, runFrames, hparse, hcb, h1]

theorem C6_callbackErrorClassification_witness :
    parse_ws_message (some (.obj [("price", .num 95)])) = .ok (.obj [("price", .num 95)])
    ∧ connRaisingCallback (.obj [("price", .num 95)]) = .error .connectionError
    ∧ CallbackExc.connectionError ≠ CallbackExc.authError
    ∧ CallbackExc.connectionError ≠ CallbackExc.wsException
    ∧ (subscribe_quotes connRaisingCallback 3 none
        [⟨[some (.obj [("price", .num 95)])], false⟩]).outcome = .failedApi :=
  ⟨rfl, rfl, by decide, by decide,
    (C6_callbackErrorClassification connRaisingCallback 3 none
        (some (.obj [("price", .num 95)])) (.obj [("price", .num 95)])
        .connectionError false [] rfl rfl).2.1 (by decide) (by decide)⟩

/-- C6 counterexample: two callback errors violate the claimed
classification.  An `AlorConnectionError` raised by the callback does *not*
propagate with its original type — the subscription surfaces a wrapped
`AlorAPIError` instead (the broad `except Exception` clause catches it; there
is no `AlorConnectionError`-specific handling).  And a
`ConnectionClosedError` raised by the callback is *not* wrapped as an
`AlorAPIError` either — the transport clause catches it, and with the
attempt budget exhausted the subscription surfaces an `AlorConnectionError`. -/
theorem C6_connectionErrorWrapped :
    (connRaisingCallback (Json.obj [("price", Json.num 95)]) = .error .connectionError
     ∧ (subscribe_quotes connRaisingCallback 3 none [oneObjSession]).outcome = .failedApi
     ∧ (subscribe_quotes connRaisingCallback 3 none [oneObjSession]).outcome
         ≠ .failedConnection)
    ∧ (wsRaisingCallback (Json.obj [("price", Json.num 95)]) = .error .wsException
     ∧ (subscribe_quotes wsRaisingCallback 0 none [oneObjSession]).outcome
         = .failedConnection
     ∧ (subscribe_quotes wsRaisingCallback 0 none [oneObjSession]).outcome
         ≠ .failedApi) :=
  ⟨⟨rfl, rfl, by decide⟩, ⟨rfl, rfl, by decide⟩⟩

theorem applyLevels_quantity (o : Order) (p : Position) :
    (applyLevels o p).quantity = p.quantity := by
  unfold applyLevels
  split_ifs <;> rfl

theorem update_buy_quantity (p : Position) (q pr : ℚ) :
    (p.update "BUY" q pr).quantity = p.quantity + q := by
  unfold Position.update
  simp only [if_pos rfl]
  split_ifs <;> rfl

theorem update_sell_quantity (p : Position) (q pr : ℚ) (h : q ≤ p.quantity) :
    (p.update "SELL" q pr).quantity = p.quantity - q := by
  unfold Position.update
  rw [if_neg sell_ne_buy, if_pos rfl]
  dsimp only
  split_ifs with h0
  · have : p.quantity - q = 0 := le_antisymm h0 (by linarith)
    simp [this]
  · rfl

theorem finishTrade_positions_self (t : PaperTrader) (o : Order) (p : Position) :
    (finishTrade t o p).2.positions o.symbol
      = if (applyLevels o p).quantity = 0 then none else some (applyLevels o p) := by
  by_cases h : (applyLevels o p).quantity = 0 <;>
    simp [finishTrade, h, setPos, popPos]

theorem finishTrade_positions_other (t : PaperTrader) (o : Order) (p : Position)
    (s : String) (hs : s ≠ o.symbol) :
    (finishTrade t o p).2.positions s = t.positions s := by
  by_cases h : (applyLevels o p).quantity = 0 <;>
    simp [finishTrade, h, setPos, popPos, hs]

/-- The complete branch structure of `process_order`: which guard fired, and
the exact state each raise leaves behind (the success path continues in
`afterTrade`). -/
theorem processOrder_shape (t : PaperTrader) (o : Order) :
    (o.quantity ≤ 0 ∧ processOrder t o = (.error .invalidQuantity, t))
    ∨ (¬ o.quantity ≤ 0 ∧ o.price ≤ 0 ∧ processOrder t o = (.error .invalidPrice, t))
    ∨ (¬ o.quantity ≤ 0 ∧ ¬ o.price ≤ 0 ∧ o.side = "BUY"
        ∧ o.quantity * o.price > t.cash
        ∧ processOrder t o = (.error .insufficientFunds,
            { t with positions := setdefaultPos t.positions o.symbol { symbol := o.symbol } }))
    ∨ (¬ o.quantity ≤ 0 ∧ ¬ o.price ≤ 0 ∧ o.side = "BUY"
        ∧ ¬ o.quantity * o.price > t.cash
        ∧ processOrder t o = afterTrade
            { cash := t.cash - o.quantity * o.price,
              positions := setPos (setdefaultPos t.positions o.symbol { symbol := o.symbol })
                o.symbol
                (((t.positions o.symbol).getD { symbol := o.symbol }).update "BUY"
                  o.quantity o.price),
              log := t.log }
            o (((t.positions o.symbol).getD { symbol := o.symbol }).update "BUY"
                o.quantity o.price))
    ∨ (¬ o.quantity ≤ 0 ∧ ¬ o.price ≤ 0 ∧ ¬ o.side = "BUY" ∧ o.side = "SELL"
        ∧ ((t.positions o.symbol).getD { symbol := o.symbol }).quantity < o.quantity
        ∧ processOrder t o = (.error .insufficientPosition,
            { t with positions := setdefaultPos t.positions o.symbol { symbol := o.symbol } }))
    ∨ (¬ o.quantity ≤ 0 ∧ ¬ o.price ≤ 0 ∧ ¬ o.side = "BUY" ∧ o.side = "SELL"
        ∧ ¬ ((t.positions o.symbol).getD { symbol := o.symbol }).quantity < o.quantity
        ∧ processOrder t o = afterTrade
            { cash := t.cash + o.quantity * o.price,
              positions := setPos (setdefaultPos t.positions o.symbol { symbol := o.symbol })
                o.symbol
                (((t.positions o.symbol).getD { symbol := o.symbol }).update "SELL"
                  o.quantity o.price),
              log := t.log }
            o (((t.positions o.symbol).getD { symbol := o.symbol }).update "SELL"
                o.quantity o.price))
    ∨ (¬ o.quantity ≤ 0 ∧ ¬ o.price ≤ 0 ∧ ¬ o.side = "BUY" ∧ ¬ o.side = "SELL"
        ∧ processOrder t o = (.error .unknownSide,
            { t with positions := setdefaultPos t.positions o.symbol { symbol := o.symbol } })) := by
  by_cases hq : o.quantity ≤ 0
  · exact Or.inl ⟨hq, by simp [processOrder, hq]⟩
  · by_cases hp : o.price ≤ 0
    · exact Or.inr (Or.inl ⟨hq, hp, by simp [processOrder, hq, hp]⟩)
    · by_cases hb : o.side = "BUY"
      · by_cases hc : o.quantity * o.price > t.cash
        · exact Or.inr (Or.inr (Or.inl ⟨hq, hp, hb, hc, by simp [processOrder, hq, hp, hb, hc]⟩))
        · exact Or.inr (Or.inr (Or.inr (Or.inl
            ⟨hq, hp, hb, hc, by simp [processOrder, hq, hp, hb, hc]⟩)))
      · by_cases hs : o.side = "SELL"
        · by_cases hins :
              ((t.positions o.symbol).getD { symbol := o.symbol }).quantity < o.quantity
          · exact Or.inr (Or.inr (Or.inr (Or.inr (Or.inl
              ⟨hq, hp, hb, hs, hins, by simp [processOrder, hq, hp, hb, hs, hins]⟩))))
          · exact Or.inr (Or.inr (Or.inr (Or.inr (Or.inr (Or.inl
              ⟨hq, hp, hb, hs, hins, by simp [processOrder, hq, hp, hb, hs, hins]⟩)))))
        · exact Or.inr (Or.inr (Or.inr (Or.inr (Or.inr (Or.inr
            ⟨hq, hp, hb, hs, by simp [processOrder, hq, hp, hb, hs]⟩)))))

/-- A successful `process_order` call went through one of the two trade
branches (its side is the matching literal), passed the quantity/price and
affordability/position guards, and its final state is the `finishTrade` of
the mutated intermediate state. -/
theorem processOrder_ok_shape (t : PaperTrader) (o : Order)
    (hok : (processOrder t o).1 = .ok ()) :
    ∃ cash1 : ℚ,
      (o.side = "BUY" ∨ o.side = "SELL")
      ∧ ¬ o.quantity ≤ 0
      ∧ (o.side = "SELL" →
          o.quantity ≤ ((t.positions o.symbol).getD { symbol := o.symbol }).quantity)
      ∧ processOrder t o = finishTrade
          { cash := cash1,
            positions := setPos (setdefaultPos t.positions o.symbol { symbol := o.symbol })
              o.symbol
              (((t.positions o.symbol).getD { symbol := o.symbol }).update o.side
                o.quantity o.price),
            log := t.log }
          o (((t.positions o.symbol).getD { symbol := o.symbol }).update o.side
              o.quantity o.price) := by
  rcases processOrder_shape t o with ⟨hq, heq⟩ | ⟨hq, hp, heq⟩ | ⟨hq, hp, hb, hc, heq⟩
      | ⟨hq, hp, hb, hc, heq⟩ | ⟨hq, hp, hb, hs, hins, heq⟩ | ⟨hq, hp, hb, hs, hins, heq⟩
      | ⟨hq, hp, hb, hs, heq⟩
  · rw [heq] at hok
    simp at hok
  · rw [heq] at hok
    simp at hok
  · rw [heq] at hok
    simp at hok
  · rcases afterTrade_cases
        { cash := t.cash - o.quantity * o.price,
          positions := setPos (setdefaultPos t.positions o.symbol { symbol := o.symbol })
            o.symbol
            (((t.positions o.symbol).getD { symbol := o.symbol }).update "BUY"
              o.quantity o.price),
          log := t.log }
        o (((t.positions o.symbol).getD { symbol := o.symbol }).update "BUY"
            o.quantity o.price) with h | h
    · rw [heq, h] at hok
      simp at hok
    · refine ⟨t.cash - o.quantity * o.price, Or.inl hb, hq,
        fun hsell => absurd (hb.symm.trans hsell) buy_ne_sell, ?_⟩
      rw [hb]
      exact heq.trans h
  · rw [heq] at hok
    simp at hok
  · rcases afterTrade_cases
        { cash := t.cash + o.quantity * o.price,
          positions := setPos (setdefaultPos t.positions o.symbol { symbol := o.symbol })
            o.symbol
            (((t.positions o.symbol).getD { symbol := o.symbol }).update "SELL"
              o.quantity o.price),
          log := t.log }
        o (((t.positions o.symbol).getD { symbol := o.symbol }).update "SELL"
            o.quantity o.price) with h | h
    · rw [heq, h] at hok
      simp at hok
    · refine ⟨t.cash + o.quantity * o.price, Or.inr hs, hq,
        fun _ => not_lt.mp hins, ?_⟩
      rw [hs]
      exact heq.trans h
  · rw [heq] at hok
    simp at hok

/-- C3 (amended): assuming every stored position has non-negative quantity
(true of every reachable ledger state), a *successful* `process_order` call
leaves the processed symbol's entry either absent or with quantity > 0 —
created on first BUY, removed the moment quantity returns to zero — and
leaves every other symbol's entry untouched.  (A raising call can leave a
zero-quantity entry behind; see the counterexample.) -/
theorem C3_successPositiveEntries (t : PaperTrader) (o : Order)
    (hinv : ∀ s p, t.positions s = some p → 0 ≤ p.quantity)
    (hok : (processOrder t o).1 = .ok ()) :
    ((processOrder t o).2.positions o.symbol = none
      ∨ ∃ p, (processOrder t o).2.positions o.symbol = some p ∧ 0 < p.quantity)
    ∧ (∀ s, s ≠ o.symbol → (processOrder t o).2.positions s = t.positions s) := by
  obtain ⟨cash1, hside, hq, hsell, heq⟩ := processOrder_ok_shape t o hok
  have hge : 0 ≤ ((t.positions o.symbol).getD { symbol := o.symbol }).quantity := by
    rcases hcase : t.positions o.symbol with _ | p
    · simp [hcase]
    · simpa [hcase] using hinv o.symbol p hcase
  have hq' : 0 < o.quantity := not_le.mp hq
  have hqty : 0 ≤
      (((t.positions o.symbol).getD { symbol := o.symbol }).update o.side
        o.quantity o.price).quantity := by
    rcases hside with hb | hs
    · rw [hb, update_buy_quantity]
      linarith
    · rw [hs, update_sell_quantity _ _ _ (hsell hs)]
      linarith [hsell hs]
  rw [heq]
  constructor
  · rw [finishTrade_positions_self]
    by_cases h0 : (applyLevels o
        (((t.positions o.symbol).getD { symbol := o.symbol }).update o.side
          o.quantity o.price)).quantity = 0
    · rw [if_pos h0]
      exact Or.inl rfl
    · rw [if_neg h0]
      refine Or.inr ⟨_, rfl, ?_⟩
      rw [applyLevels_quantity] at h0 ⊢
      exact lt_of_le_of_ne hqty (Ne.symm h0)
  · intro s hs
    rw [finishTrade_positions_other _ _ _ s hs]
    simp [setPos, setdefaultPos, hs]

theorem C3_successPositiveEntries_witness :
    (∀ s p, trader1000.positions s = some p → 0 ≤ p.quantity)
    ∧ (processOrder trader1000 buy5at100).1 = .ok ()
    ∧ (((processOrder trader1000 buy5at100).2.positions buy5at100.symbol = none
        ∨ ∃ p, (processOrder trader1000 buy5at100).2.positions buy5at100.symbol = some p
            ∧ 0 < p.quantity)
       ∧ (∀ s, s ≠ buy5at100.symbol →
            (processOrder trader1000 buy5at100).2.positions s = trader1000.positions s)) :=
  ⟨fun s p h => by simp [trader1000] at h,
   by norm_num [processOrder, afterTrade, finishTrade, applyLevels, Position.update,
     setdefaultPos, setPos, popPos, trader1000, buy5at100],
   C3_successPositiveEntries trader1000 buy5at100
     (fun s p h => by simp [trader1000] at h)
     (by norm_num [processOrder, afterTrade, finishTrade, applyLevels, Position.update,
       setdefaultPos, setPos, popPos, trader1000, buy5at100])⟩

/-- C3 counterexample: a BUY rejected for insufficient funds still leaves a
fresh zero-quantity entry for its symbol in the positions map, because
`setdefault` runs before the affordability check — so the map does not
contain only quantity > 0 positions after every call. -/
theorem C3_failedBuyLeavesZeroEntry :
    (processOrder trader100 { symbol := "S", side := "BUY", quantity := 10, price := 100 }).1
        = .error .insufficientFunds
    ∧ (processOrder trader100
        { symbol := "S", side := "BUY", quantity := 10, price := 100 }).2.positions "S"
        = some { symbol := "S", quantity := 0, avg_price := 0,
                 stop_loss := none, take_profit := none } := by
  constructor <;>
    norm_num [processOrder, setdefaultPos, trader100]

/-- When the stop/take cross-check raises, it leaves exactly the (already
mutated) state it was given, and the raised error is the stop/take one. -/
theorem afterTrade_error_state (t : PaperTrader) (o : Order) (p : Position)
    (e : TradeError) (herr : (afterTrade t o p).1 = .error e) :
    afterTrade t o p = (.error .invalidStopTake, t) ∧ e = .invalidStopTake := by
  rcases afterTrade_cases t o p with h | h
  · rw [h] at herr
    simp at herr
    exact ⟨h, herr.symm⟩
  · rw [h, finishTrade_fst] at herr
    exact absurd herr (by simp)

/-- C1 (amended): every raising `process_order` call appends no trade-log
record.  The quantity/price validation errors leave the ledger exactly
unchanged.  The insufficient-funds/position errors leave cash and every
existing position unchanged but can add a fresh zero-quantity entry for the
order's symbol (`setdefault` runs before those checks).  The stop-loss >=
take-profit error is raised only after the cash/position mutation, which
persists: cash has already moved by the order's cost/proceeds. -/
theorem C1_domainErrorsEffect (t : PaperTrader) (o : Order) (e : TradeError)
    (herr : (processOrder t o).1 = .error e) :
    (processOrder t o).2.log = t.log
    ∧ (e = .invalidQuantity ∨ e = .invalidPrice → (processOrder t o).2 = t)
    ∧ (e = .insufficientFunds ∨ e = .insufficientPosition →
        (processOrder t o).2.cash = t.cash
        ∧ (∀ s, s ≠ o.symbol → (processOrder t o).2.positions s = t.positions s)
        ∧ ((processOrder t o).2.positions o.symbol = t.positions o.symbol
           ∨ (t.positions o.symbol = none
              ∧ (processOrder t o).2.positions o.symbol
                  = some { symbol := o.symbol, quantity := 0, avg_price := 0,
                           stop_loss := none, take_profit := none })))
    ∧ (e = .invalidStopTake →
        (o.side = "BUY" → (processOrder t o).2.cash = t.cash - o.quantity * o.price)
        ∧ (o.side = "SELL" → (processOrder t o).2.cash = t.cash + o.quantity * o.price)) := by
  rcases processOrder_shape t o with ⟨hq, heq⟩ | ⟨hq, hp, heq⟩ | ⟨hq, hp, hb, hc, heq⟩
      | ⟨hq, hp, hb, hc, heq⟩ | ⟨hq, hp, hb, hs, hins, heq⟩ | ⟨hq, hp, hb, hs, hins, heq⟩
      | ⟨hq, hp, hb, hs, heq⟩
  · rw [heq] at herr ⊢
    simp at herr
    subst herr
    exact ⟨rfl, fun _ => rfl, fun h => absurd h (by decide), fun h => absurd h (by decide)⟩
  · rw [heq] at herr ⊢
    simp at herr
    subst herr
    exact ⟨rfl, fun _ => rfl, fun h => absurd h (by decide), fun h => absurd h (by decide)⟩
  · rw [heq] at herr ⊢
    simp at herr
    subst herr
    refine ⟨rfl, fun h => absurd h (by decide), fun _ => ⟨rfl, ?_, ?_⟩,
      fun h => absurd h (by decide)⟩
    · intro s hs
      simp [setdefaultPos, hs]
    · rcases hc2 : t.positions o.symbol with _ | p
      · exact Or.inr ⟨rfl, by simp [setdefaultPos, hc2]⟩
      · exact Or.inl (by simp [setdefaultPos, hc2])
  · rw [heq] at herr ⊢
    obtain ⟨hAT, he⟩ := afterTrade_error_state _ _ _ e herr
    subst he
    rw [hAT]
    exact ⟨rfl, fun h => absurd h (by decide), fun h => absurd h (by decide),
      fun _ => ⟨fun _ => rfl, fun hsell => absurd (hb.symm.trans hsell) buy_ne_sell⟩⟩
  · rw [heq] at herr ⊢
    simp at herr
    subst herr
    refine ⟨rfl, fun h => absurd h (by decide), fun _ => ⟨rfl, ?_, ?_⟩,
      fun h => absurd h (by decide)⟩
    · intro s hs2
      simp [setdefaultPos, hs2]
    · rcases hc2 : t.positions o.symbol with _ | p
      · exact Or.inr ⟨rfl, by simp [setdefaultPos, hc2]⟩
      · exact Or.inl (by simp [setdefaultPos, hc2])
  · rw [heq] at herr ⊢
    obtain ⟨hAT, he⟩ := afterTrade_error_state _ _ _ e herr
    subst he
    rw [hAT]
    exact ⟨rfl, fun h => absurd h (by decide), fun h => absurd h (by decide),
      fun _ => ⟨fun hbuy => absurd (hs.symm.trans hbuy) sell_ne_buy, fun _ => rfl⟩⟩
  · rw [heq] at herr ⊢
    simp at herr
    subst herr
    exact ⟨rfl, fun h => absurd h (by decide), fun h => absurd h (by decide),
      fun h => absurd h (by decide)⟩

theorem C1_domainErrorsEffect_witness :
    (processOrder trader1000 orderBadLevels).1 = .error .invalidStopTake
    ∧ ((processOrder trader1000 orderBadLevels).2.log = trader1000.log
       ∧ (TradeError.invalidStopTake = .invalidQuantity
            ∨ TradeError.invalidStopTake = .invalidPrice →
           (processOrder trader1000 orderBadLevels).2 = trader1000)
       ∧ (TradeError.invalidStopTake = .insufficientFunds
            ∨ TradeError.invalidStopTake = .insufficientPosition →
           (processOrder trader1000 orderBadLevels).2.cash = trader1000.cash
           ∧ (∀ s, s ≠ orderBadLevels.symbol →
               (processOrder trader1000 orderBadLevels).2.positions s
                 = trader1000.positions s)
           ∧ ((processOrder trader1000 orderBadLevels).2.positions orderBadLevels.symbol
                 = trader1000.positions orderBadLevels.symbol
              ∨ (trader1000.positions orderBadLevels.symbol = none
                 ∧ (processOrder trader1000 orderBadLevels).2.positions orderBadLevels.symbol
                     = some { symbol := orderBadLevels.symbol, quantity := 0,
                              avg_price := 0, stop_loss := none, take_profit := none })))
       ∧ (TradeError.invalidStopTake = .invalidStopTake →
           (orderBadLevels.side = "BUY" →
             (processOrder trader1000 orderBadLevels).2.cash
               = trader1000.cash - orderBadLevels.quantity * orderBadLevels.price)
           ∧ (orderBadLevels.side = "SELL" →
             (processOrder trader1000 orderBadLevels).2.cash
               = trader1000.cash + orderBadLevels.quantity * orderBadLevels.price))) :=
  ⟨by norm_num [processOrder, afterTrade, finishTrade, applyLevels, Position.update,
      setdefaultPos, setPos, popPos, trader1000, orderBadLevels],
   C1_domainErrorsEffect trader1000 orderBadLevels .invalidStopTake
     (by norm_num [processOrder, afterTrade, finishTrade, applyLevels, Position.update,
        setdefaultPos, setPos, popPos, trader1000, orderBadLevels])⟩

/-- C1 counterexample: the stop-loss >= take-profit rejection is a ledger
domain error (InvalidOrderError), yet the state after the raise is *not*
what it was before the call: the BUY of 1 unit at price 1 has already been
applied, so cash is 999 instead of 1000 and a new position entry exists. -/
theorem C1_stopTakeErrorMutates :
    (processOrder trader1000 orderBadLevels).1 = .error .invalidStopTake
    ∧ (processOrder trader1000 orderBadLevels).2.cash = 999
    ∧ (processOrder trader1000 orderBadLevels).2.cash ≠ trader1000.cash
    ∧ (processOrder trader1000 orderBadLevels).2.positions "S"
        = some { symbol := "S", quantity := 1, avg_price := 1,
                 stop_loss := none, take_profit := none }
    ∧ trader1000.positions "S" = none := by
  refine ⟨?_, ?_, ?_, ?_, rfl⟩ <;>
    norm_num [processOrder, afterTrade, finishTrade, applyLevels, Position.update,
      setdefaultPos, setPos, popPos, trader1000, orderBadLevels]

end TradingBot
